import Mathlib

/-!
# Execution guard: a shallow embedding of `execution_guard.py`

This file embeds the `ExecutionGuard` runtime safety-limit component
(`src/core/framework/runtime/execution_guard.py`) and proves the spec's
claims about it.

Modelling choices:
* Python `int` counters and limits become `Int`; Python `float` time and
  cost become `ℚ` (exact arithmetic stands in for binary64).
* `time.time()` is made explicit: operations that read the clock take the
  current instant `now : ℚ` as a parameter; construction records it as
  `start_time`.
* Python `dict[str, object]` detail payloads with dynamic keys become
  association lists over a small value type `GValue`; the fixed-shape
  statistics dictionary of `get_stats` becomes a record.
* Mutating methods return the updated guard; read-only methods additionally
  get a `...Run` form returning `(result, post_state)`, the state-transformer
  semantics of a Python method call, used to state frame properties.
-/

/-- A dynamically-typed value appearing in a result's `details` dictionary:
Python `int`, `float` or `str`. -/
inductive GValue where
  | int (i : Int)
  | rat (q : ℚ)
  | str (s : String)
  deriving DecidableEq

/-- Configuration for execution safety limits (`ExecutionLimitConfig`).
`none` means "no limit" for each field. -/
structure ExecutionLimitConfig where
  max_steps : Option Int := none
  max_runtime_ms : Option Int := none
  max_tokens : Option Int := none
  max_cost_usd : Option ℚ := none
  deriving DecidableEq

/-- Result of an execution guard check (`ExecutionGuardResult`). -/
structure ExecutionGuardResult where
  should_terminate : Bool
  reason : String
  details : List (String × GValue)
  deriving DecidableEq

/-- Mutable state of one `ExecutionGuard` instance: identifier,
configuration, construction instant and the three live counters. -/
structure ExecutionGuard where
  execution_id : String
  config : ExecutionLimitConfig
  start_time : ℚ
  step_count : Int
  token_count : Int
  cost_tracker : ℚ
  deriving DecidableEq

/-- `ExecutionGuard.__init__`: stores the identifier and configuration,
captures the current time and zeroes the three counters.  The Python
constructor contains no validation and no `raise`; it is total. -/
def ExecutionGuard.init (execution_id : String) (config : ExecutionLimitConfig)
    (now : ℚ) : ExecutionGuard :=
  { execution_id := execution_id
    config := config
    start_time := now
    step_count := 0
    token_count := 0
    cost_tracker := 0 }

/-- `check_step_limit`: trips iff `max_steps` is set and
`step_count > max_steps` (strict). -/
def ExecutionGuard.check_step_limit (g : ExecutionGuard) :
    Option ExecutionGuardResult :=
  match g.config.max_steps with
  | some m =>
    if g.step_count > m then
      some { should_terminate := true
             reason := "STEP_LIMIT_EXCEEDED"
             details := [("step_count", .int g.step_count),
                         ("max_steps", .int m)] }
    else none
  | none => none

/-- `check_runtime_limit`: trips iff `max_runtime_ms` is set and the elapsed
milliseconds `(now - start_time) * 1000` are `≥ max_runtime_ms`. -/
def ExecutionGuard.check_runtime_limit (g : ExecutionGuard) (now : ℚ) :
    Option ExecutionGuardResult :=
  match g.config.max_runtime_ms with
  | some m =>
    if (now - g.start_time) * 1000 ≥ (m : ℚ) then
      some { should_terminate := true
             reason := "TIME_LIMIT_EXCEEDED"
             details := [("current_runtime_ms", .rat ((now - g.start_time) * 1000)),
                         ("max_runtime_ms", .int m)] }
    else none
  | none => none

/-- `check_token_limit`: trips iff `max_tokens` is set and
`token_count >= max_tokens`. -/
def ExecutionGuard.check_token_limit (g : ExecutionGuard) :
    Option ExecutionGuardResult :=
  match g.config.max_tokens with
  | some m =>
    if g.token_count ≥ m then
      some { should_terminate := true
             reason := "TOKEN_LIMIT_EXCEEDED"
             details := [("token_count", .int g.token_count),
                         ("max_tokens", .int m)] }
    else none
  | none => none

/-- `check_cost_limit`: trips iff `max_cost_usd` is set and
`cost_tracker >= max_cost_usd`. -/
def ExecutionGuard.check_cost_limit (g : ExecutionGuard) :
    Option ExecutionGuardResult :=
  match g.config.max_cost_usd with
  | some m =>
    if g.cost_tracker ≥ m then
      some { should_terminate := true
             reason := "COST_LIMIT_EXCEEDED"
             details := [("current_cost_usd", .rat g.cost_tracker),
                         ("max_cost_usd", .rat m)] }
    else none
  | none => none

/-- `check_all_limits`: evaluates the four checks in source order (step,
runtime, token, cost) and returns the first that trips; otherwise a
"within limits" result snapshotting the counters and elapsed runtime. -/
def ExecutionGuard.check_all_limits (g : ExecutionGuard) (now : ℚ) :
    ExecutionGuardResult :=
  match g.check_step_limit with
  | some r => r
  | none =>
    match g.check_runtime_limit now with
    | some r => r
    | none =>
      match g.check_token_limit with
      | some r => r
      | none =>
        match g.check_cost_limit with
        | some r => r
        | none =>
          { should_terminate := false
            reason := "WITHIN_LIMITS"
            details := [("step_count", .int g.step_count),
                        ("runtime_ms", .rat ((now - g.start_time) * 1000)),
                        ("token_count", .int g.token_count),
                        ("cost_usd", .rat g.cost_tracker)] }

/-- `increment_step`: unconditionally adds 1 to `step_count`. -/
def ExecutionGuard.increment_step (g : ExecutionGuard) : ExecutionGuard :=
  { g with step_count := g.step_count + 1 }

/-- `add_tokens`: adds `token_count` to the counter when positive,
otherwise does nothing. -/
def ExecutionGuard.add_tokens (g : ExecutionGuard) (token_count : Int) :
    ExecutionGuard :=
  if token_count > 0 then { g with token_count := g.token_count + token_count }
  else g

/-- `add_cost`: adds `cost_usd` to the tracker when positive,
otherwise does nothing. -/
def ExecutionGuard.add_cost (g : ExecutionGuard) (cost_usd : ℚ) :
    ExecutionGuard :=
  if cost_usd > 0 then { g with cost_tracker := g.cost_tracker + cost_usd }
  else g

/-- The statistics dictionary returned by `get_stats` (its keys are fixed in
the source, so it is a record here; the nested `limits` dictionary is the
stored configuration verbatim). -/
structure ExecutionStats where
  execution_id : String
  step_count : Int
  runtime_ms : ℚ
  token_count : Int
  cost_usd : ℚ
  limits : ExecutionLimitConfig
  deriving DecidableEq

/-- `get_stats`: read-only snapshot of identifier, counters, elapsed runtime
and the configured limits. -/
def ExecutionGuard.get_stats (g : ExecutionGuard) (now : ℚ) : ExecutionStats :=
  { execution_id := g.execution_id
    step_count := g.step_count
    runtime_ms := (now - g.start_time) * 1000
    token_count := g.token_count
    cost_usd := g.cost_tracker
    limits := g.config }

/-- One mutating call on the guard: `record_step` (`increment_step`),
`record_tokens` (`add_tokens`) or `record_cost` (`add_cost`). -/
inductive GuardOp where
  | record_step
  | record_tokens (n : Int)
  | record_cost (amount : ℚ)
  deriving DecidableEq

/-- Apply one mutating call to the guard state. -/
def ExecutionGuard.applyOp (g : ExecutionGuard) : GuardOp → ExecutionGuard
  | .record_step => g.increment_step
  | .record_tokens n => g.add_tokens n
  | .record_cost a => g.add_cost a

/-- Apply a sequence of mutating calls, left to right. -/
def ExecutionGuard.applyOps (g : ExecutionGuard) (ops : List GuardOp) :
    ExecutionGuard :=
  ops.foldl ExecutionGuard.applyOp g

/-- State-transformer form of `check_step_limit`: the Python method body
contains no assignment to `self`, so the post-state is the pre-state. -/
def ExecutionGuard.check_step_limitRun (g : ExecutionGuard) :
    Option ExecutionGuardResult × ExecutionGuard :=
  (g.check_step_limit, g)

/-- State-transformer form of `check_runtime_limit`. -/
def ExecutionGuard.check_runtime_limitRun (g : ExecutionGuard) (now : ℚ) :
    Option ExecutionGuardResult × ExecutionGuard :=
  (g.check_runtime_limit now, g)

/-- State-transformer form of `check_token_limit`. -/
def ExecutionGuard.check_token_limitRun (g : ExecutionGuard) :
    Option ExecutionGuardResult × ExecutionGuard :=
  (g.check_token_limit, g)

/-- State-transformer form of `check_cost_limit`. -/
def ExecutionGuard.check_cost_limitRun (g : ExecutionGuard) :
    Option ExecutionGuardResult × ExecutionGuard :=
  (g.check_cost_limit, g)

/-- State-transformer form of `check_all_limits`. -/
def ExecutionGuard.check_all_limitsRun (g : ExecutionGuard) (now : ℚ) :
    ExecutionGuardResult × ExecutionGuard :=
  (g.check_all_limits now, g)

/-- State-transformer form of `get_stats`. -/
def ExecutionGuard.get_statsRun (g : ExecutionGuard) (now : ℚ) :
    ExecutionStats × ExecutionGuard :=
  (g.get_stats now, g)

/-- A sample guard with no limits configured, used by witnesses. -/
def gSample : ExecutionGuard :=
  ExecutionGuard.init "exec-sample" {} 0

/-- A sample guard with all four limits configured and all four exceeded,
used by witnesses. -/
def gAllExceeded : ExecutionGuard :=
  { execution_id := "exec-all"
    config := { max_steps := some 1, max_runtime_ms := some 10,
                max_tokens := some 5, max_cost_usd := some 1 }
    start_time := 0
    step_count := 2
    token_count := 5
    cost_tracker := 2 }

/-- A sample op sequence used by witnesses. -/
def opsSample : List GuardOp :=
  [GuardOp.record_step, GuardOp.record_tokens 7, GuardOp.record_cost 3]

theorem applyOp_frame (g : ExecutionGuard) (op : GuardOp) :
    (g.applyOp op).execution_id = g.execution_id ∧
    (g.applyOp op).config = g.config ∧
    (g.applyOp op).start_time = g.start_time := by
  cases op with
  | record_step => exact ⟨rfl, rfl, rfl⟩
  | record_tokens n =>
    by_cases h : n > 0 <;>
      simp [ExecutionGuard.applyOp, ExecutionGuard.add_tokens, h]
  | record_cost a =>
    by_cases h : a > 0 <;>
      simp [ExecutionGuard.applyOp, ExecutionGuard.add_cost, h]

theorem applyOps_frame (ops : List GuardOp) (g : ExecutionGuard) :
    (g.applyOps ops).execution_id = g.execution_id ∧
    (g.applyOps ops).config = g.config ∧
    (g.applyOps ops).start_time = g.start_time := by
  induction ops generalizing g with
  | nil => exact ⟨rfl, rfl, rfl⟩
  | cons op rest ih =>
    have h1 := applyOp_frame g op
    have h2 := ih (g.applyOp op)
    exact ⟨h2.1.trans h1.1, h2.2.1.trans h1.2.1, h2.2.2.trans h1.2.2⟩

theorem iterate_increment_step_count (g : ExecutionGuard) (n : ℕ) :
    (ExecutionGuard.increment_step^[n] g).step_count = g.step_count + n := by
  induction n with
  | zero => simp
  | succ k ih =>
    rw [Function.iterate_succ_apply']
    simp only [ExecutionGuard.increment_step, ih]
    push_cast
    ring

theorem iterate_increment_config (g : ExecutionGuard) (n : ℕ) :
    (ExecutionGuard.increment_step^[n] g).config = g.config := by
  induction n with
  | zero => rfl
  | succ k ih =>
    rw [Function.iterate_succ_apply']
    simpa only [ExecutionGuard.increment_step] using ih

/-- Claim C5: `add_tokens` / `add_cost` with a non-positive argument are
silent no-ops leaving the whole state unchanged; with a positive argument
they add exactly that amount to the corresponding counter and change
nothing else. -/
theorem add_tokens_add_cost_nonpositive_noop (g : ExecutionGuard) (n : Int)
    (a : ℚ) :
    (n ≤ 0 → g.add_tokens n = g) ∧
    (0 < n → g.add_tokens n = { g with token_count := g.token_count + n }) ∧
    (a ≤ 0 → g.add_cost a = g) ∧
    (0 < a → g.add_cost a = { g with cost_tracker := g.cost_tracker + a }) := by
  refine ⟨fun h => ?_, fun h => ?_, fun h => ?_, fun h => ?_⟩
  · unfold ExecutionGuard.add_tokens
    rw [if_neg (not_lt.mpr h)]
  · unfold ExecutionGuard.add_tokens
    rw [if_pos h]
  · unfold ExecutionGuard.add_cost
    rw [if_neg (not_lt.mpr h)]
  · unfold ExecutionGuard.add_cost
    rw [if_pos h]

/-- Witness for C5 at concrete inputs. -/
theorem add_tokens_add_cost_nonpositive_noop_witness :
    gSample.add_tokens (-1) = gSample ∧
    gSample.add_cost 0 = gSample ∧
    gSample.add_tokens 5 = { gSample with token_count := gSample.token_count + 5 } ∧
    gSample.add_cost (1/2) = { gSample with cost_tracker := gSample.cost_tracker + 1/2 } :=
  ⟨(add_tokens_add_cost_nonpositive_noop gSample (-1) 1).1 (by decide),
   (add_tokens_add_cost_nonpositive_noop gSample 1 0).2.2.1 (by norm_num),
   (add_tokens_add_cost_nonpositive_noop gSample 5 1).2.1 (by decide),
   (add_tokens_add_cost_nonpositive_noop gSample 1 (1/2)).2.2.2 (by norm_num)⟩

/-- Claim C7: every mutating operation (`record_step`, `record_tokens`,
`record_cost`, with any argument) leaves each of the three counters
greater than or equal to its previous value, and preserves
non-negativity of all three. -/
theorem counters_monotone (g : ExecutionGuard) (op : GuardOp)
    (h0 : 0 ≤ g.step_count ∧ 0 ≤ g.token_count ∧ 0 ≤ g.cost_tracker) :
    (g.step_count ≤ (g.applyOp op).step_count ∧
     g.token_count ≤ (g.applyOp op).token_count ∧
     g.cost_tracker ≤ (g.applyOp op).cost_tracker) ∧
    (0 ≤ (g.applyOp op).step_count ∧ 0 ≤ (g.applyOp op).token_count ∧
     0 ≤ (g.applyOp op).cost_tracker) := by
  obtain ⟨hs, ht, hc⟩ := h0
  cases op with
  | record_step =>
    simp only [ExecutionGuard.applyOp, ExecutionGuard.increment_step]
    exact ⟨⟨by omega, le_refl _, le_refl _⟩, ⟨by omega, ht, hc⟩⟩
  | record_tokens n =>
    by_cases hn : n > 0
    · simp only [ExecutionGuard.applyOp, ExecutionGuard.add_tokens, if_pos hn]
      exact ⟨⟨le_refl _, by omega, le_refl _⟩, ⟨hs, by omega, hc⟩⟩
    · simp only [ExecutionGuard.applyOp, ExecutionGuard.add_tokens, if_neg hn]
      exact ⟨⟨le_refl _, le_refl _, le_refl _⟩, ⟨hs, ht, hc⟩⟩
  | record_cost a =>
    by_cases ha : a > 0
    · simp only [ExecutionGuard.applyOp, ExecutionGuard.add_cost, if_pos ha]
      exact ⟨⟨le_refl _, le_refl _, by linarith⟩, ⟨hs, ht, by linarith⟩⟩
    · simp only [ExecutionGuard.applyOp, ExecutionGuard.add_cost, if_neg ha]
      exact ⟨⟨le_refl _, le_refl _, le_refl _⟩, ⟨hs, ht, hc⟩⟩

/-- Witness for C7 at a concrete state and operation. -/
theorem counters_monotone_witness :
    (gSample.step_count ≤ (gSample.applyOp (GuardOp.record_tokens (-5))).step_count ∧
     gSample.token_count ≤ (gSample.applyOp (GuardOp.record_tokens (-5))).token_count ∧
     gSample.cost_tracker ≤ (gSample.applyOp (GuardOp.record_tokens (-5))).cost_tracker) ∧
    (0 ≤ (gSample.applyOp (GuardOp.record_tokens (-5))).step_count ∧
     0 ≤ (gSample.applyOp (GuardOp.record_tokens (-5))).token_count ∧
     0 ≤ (gSample.applyOp (GuardOp.record_tokens (-5))).cost_tracker) :=
  counters_monotone gSample (GuardOp.record_tokens (-5))
    ⟨by decide, by decide, le_refl 0⟩

/-- Claim C10: the six read operations, in state-transformer form, leave
the guard state (identifier, configuration, start instant and all three
counters) exactly unchanged. -/
theorem read_operations_no_mutation (g : ExecutionGuard) (now : ℚ) :
    (g.check_step_limitRun).2 = g ∧
    (g.check_runtime_limitRun now).2 = g ∧
    (g.check_token_limitRun).2 = g ∧
    (g.check_cost_limitRun).2 = g ∧
    (g.check_all_limitsRun now).2 = g ∧
    (g.get_statsRun now).2 = g :=
  ⟨rfl, rfl, rfl, rfl, rfl, rfl⟩

theorem check_step_limit_isSome_iff (g : ExecutionGuard) :
    (g.check_step_limit).isSome = true ↔
      ∃ m, g.config.max_steps = some m ∧ g.step_count > m := by
  unfold ExecutionGuard.check_step_limit
  cases h : g.config.max_steps with
  | none => simp
  | some m => by_cases hc : g.step_count > m <;> simp [hc]

theorem check_runtime_limit_isSome_iff (g : ExecutionGuard) (now : ℚ) :
    (g.check_runtime_limit now).isSome = true ↔
      ∃ m, g.config.max_runtime_ms = some m ∧
        (now - g.start_time) * 1000 ≥ (m : ℚ) := by
  unfold ExecutionGuard.check_runtime_limit
  cases h : g.config.max_runtime_ms with
  | none => simp
  | some m => by_cases hc : (now - g.start_time) * 1000 ≥ (m : ℚ) <;> simp [hc]

theorem check_token_limit_isSome_iff (g : ExecutionGuard) :
    (g.check_token_limit).isSome = true ↔
      ∃ m, g.config.max_tokens = some m ∧ g.token_count ≥ m := by
  unfold ExecutionGuard.check_token_limit
  cases h : g.config.max_tokens with
  | none => simp
  | some m => by_cases hc : g.token_count ≥ m <;> simp [hc]

theorem check_cost_limit_isSome_iff (g : ExecutionGuard) :
    (g.check_cost_limit).isSome = true ↔
      ∃ m, g.config.max_cost_usd = some m ∧ g.cost_tracker ≥ m := by
  unfold ExecutionGuard.check_cost_limit
  cases h : g.config.max_cost_usd with
  | none => simp
  | some m => by_cases hc : g.cost_tracker ≥ m <;> simp [hc]

theorem check_step_limit_some_spec (g : ExecutionGuard) (r : ExecutionGuardResult)
    (h : g.check_step_limit = some r) :
    r.should_terminate = true ∧ r.reason = "STEP_LIMIT_EXCEEDED" := by
  unfold ExecutionGuard.check_step_limit at h
  split at h
  · split at h
    · cases Option.some.inj h
      exact ⟨rfl, rfl⟩
    · exact Option.noConfusion h
  · exact Option.noConfusion h

theorem check_runtime_limit_some_spec (g : ExecutionGuard) (now : ℚ)
    (r : ExecutionGuardResult) (h : g.check_runtime_limit now = some r) :
    r.should_terminate = true ∧ r.reason = "TIME_LIMIT_EXCEEDED" := by
  unfold ExecutionGuard.check_runtime_limit at h
  split at h
  · split at h
    · cases Option.some.inj h
      exact ⟨rfl, rfl⟩
    · exact Option.noConfusion h
  · exact Option.noConfusion h

theorem check_token_limit_some_spec (g : ExecutionGuard)
    (r : ExecutionGuardResult) (h : g.check_token_limit = some r) :
    r.should_terminate = true ∧ r.reason = "TOKEN_LIMIT_EXCEEDED" := by
  unfold ExecutionGuard.check_token_limit at h
  split at h
  · split at h
    · cases Option.some.inj h
      exact ⟨rfl, rfl⟩
    · exact Option.noConfusion h
  · exact Option.noConfusion h

theorem check_cost_limit_some_spec (g : ExecutionGuard)
    (r : ExecutionGuardResult) (h : g.check_cost_limit = some r) :
    r.should_terminate = true ∧ r.reason = "COST_LIMIT_EXCEEDED" := by
  unfold ExecutionGuard.check_cost_limit at h
  split at h
  · split at h
    · cases Option.some.inj h
      exact ⟨rfl, rfl⟩
    · exact Option.noConfusion h
  · exact Option.noConfusion h

theorem check_all_limits_of_step_some (g : ExecutionGuard) (now : ℚ)
    (r : ExecutionGuardResult) (h : g.check_step_limit = some r) :
    g.check_all_limits now = r := by
  unfold ExecutionGuard.check_all_limits
  rw [h]

theorem check_all_limits_of_runtime_some (g : ExecutionGuard) (now : ℚ)
    (r : ExecutionGuardResult) (h1 : g.check_step_limit = none)
    (h : g.check_runtime_limit now = some r) :
    g.check_all_limits now = r := by
  unfold ExecutionGuard.check_all_limits
  rw [h1, h]

theorem check_all_limits_of_token_some (g : ExecutionGuard) (now : ℚ)
    (r : ExecutionGuardResult) (h1 : g.check_step_limit = none)
    (h2 : g.check_runtime_limit now = none) (h : g.check_token_limit = some r) :
    g.check_all_limits now = r := by
  unfold ExecutionGuard.check_all_limits
  rw [h1, h2, h]

theorem check_all_limits_of_cost_some (g : ExecutionGuard) (now : ℚ)
    (r : ExecutionGuardResult) (h1 : g.check_step_limit = none)
    (h2 : g.check_runtime_limit now = none) (h3 : g.check_token_limit = none)
    (h : g.check_cost_limit = some r) :
    g.check_all_limits now = r := by
  unfold ExecutionGuard.check_all_limits
  rw [h1, h2, h3, h]

theorem check_all_limits_of_all_none (g : ExecutionGuard) (now : ℚ)
    (h1 : g.check_step_limit = none) (h2 : g.check_runtime_limit now = none)
    (h3 : g.check_token_limit = none) (h4 : g.check_cost_limit = none) :
    g.check_all_limits now =
      { should_terminate := false
        reason := "WITHIN_LIMITS"
        details := [("step_count", .int g.step_count),
                    ("runtime_ms", .rat ((now - g.start_time) * 1000)),
                    ("token_count", .int g.token_count),
                    ("cost_usd", .rat g.cost_tracker)] } := by
  unfold ExecutionGuard.check_all_limits
  rw [h1, h2, h3, h4]

theorem check_step_limit_unset (g : ExecutionGuard)
    (h : g.config.max_steps = none) : g.check_step_limit = none := by
  unfold ExecutionGuard.check_step_limit
  rw [h]

theorem check_runtime_limit_unset (g : ExecutionGuard) (now : ℚ)
    (h : g.config.max_runtime_ms = none) : g.check_runtime_limit now = none := by
  unfold ExecutionGuard.check_runtime_limit
  rw [h]

theorem check_token_limit_unset (g : ExecutionGuard)
    (h : g.config.max_tokens = none) : g.check_token_limit = none := by
  unfold ExecutionGuard.check_token_limit
  rw [h]

theorem check_cost_limit_unset (g : ExecutionGuard)
    (h : g.config.max_cost_usd = none) : g.check_cost_limit = none := by
  unfold ExecutionGuard.check_cost_limit
  rw [h]

theorem init_config (eid : String) (cfg : ExecutionLimitConfig) (t : ℚ) :
    (ExecutionGuard.init eid cfg t).config = cfg := rfl

theorem init_step_count (eid : String) (cfg : ExecutionLimitConfig) (t : ℚ) :
    (ExecutionGuard.init eid cfg t).step_count = 0 := rfl

theorem check_step_limit_some_eq (g : ExecutionGuard) (r : ExecutionGuardResult)
    (h : g.check_step_limit = some r) :
    ∃ m, g.config.max_steps = some m ∧ g.step_count > m ∧
      r = { should_terminate := true
            reason := "STEP_LIMIT_EXCEEDED"
            details := [("step_count", GValue.int g.step_count),
                        ("max_steps", GValue.int m)] } := by
  unfold ExecutionGuard.check_step_limit at h
  split at h
  · rename_i m hm
    split at h
    · rename_i hgt
      cases Option.some.inj h
      exact ⟨m, hm, hgt, rfl⟩
    · exact Option.noConfusion h
  · exact Option.noConfusion h

/-- Claim C1: `check_all_limits` evaluates the four checks in the fixed
order step, runtime, token, cost and returns the first positive outcome;
when all four limits are simultaneously exceeded the returned result is
the step-limit trip, with reason "STEP_LIMIT_EXCEEDED". -/
theorem check_all_limits_priority (g : ExecutionGuard) (now : ℚ) :
    (∀ r, g.check_step_limit = some r → g.check_all_limits now = r) ∧
    (∀ r, g.check_step_limit = none → g.check_runtime_limit now = some r →
      g.check_all_limits now = r) ∧
    (∀ r, g.check_step_limit = none → g.check_runtime_limit now = none →
      g.check_token_limit = some r → g.check_all_limits now = r) ∧
    (∀ r, g.check_step_limit = none → g.check_runtime_limit now = none →
      g.check_token_limit = none → g.check_cost_limit = some r →
      g.check_all_limits now = r) ∧
    ((g.check_step_limit).isSome = true →
      (g.check_runtime_limit now).isSome = true →
      (g.check_token_limit).isSome = true →
      (g.check_cost_limit).isSome = true →
      (g.check_all_limits now).should_terminate = true ∧
      (g.check_all_limits now).reason = "STEP_LIMIT_EXCEEDED") := by
  refine ⟨fun r h => check_all_limits_of_step_some g now r h,
          fun r h1 h => check_all_limits_of_runtime_some g now r h1 h,
          fun r h1 h2 h => check_all_limits_of_token_some g now r h1 h2 h,
          fun r h1 h2 h3 h => check_all_limits_of_cost_some g now r h1 h2 h3 h,
          fun hs _ _ _ => ?_⟩
  obtain ⟨r, hr⟩ := Option.isSome_iff_exists.mp hs
  have hspec := check_step_limit_some_spec g r hr
  rw [check_all_limits_of_step_some g now r hr]
  exact ⟨hspec.1, hspec.2⟩

/-- Witness for C1: a concrete guard with all four limits exceeded at once
reports the step-limit reason. -/
theorem check_all_limits_priority_witness :
    (gAllExceeded.check_all_limits 1).should_terminate = true ∧
    (gAllExceeded.check_all_limits 1).reason = "STEP_LIMIT_EXCEEDED" :=
  (check_all_limits_priority gAllExceeded 1).2.2.2.2 rfl
    (by norm_num [ExecutionGuard.check_runtime_limit, gAllExceeded])
    rfl
    (by norm_num [ExecutionGuard.check_cost_limit, gAllExceeded])

/-- Claim C3: the runtime, token and cost limits trip exactly on
crossing-or-equal (`>=`) while the step limit trips exactly on strict
crossing (`>`). -/
theorem limit_comparison_operators (g : ExecutionGuard) (now : ℚ) :
    ((g.check_step_limit).isSome = true ↔
      ∃ m, g.config.max_steps = some m ∧ g.step_count > m) ∧
    ((g.check_runtime_limit now).isSome = true ↔
      ∃ m, g.config.max_runtime_ms = some m ∧
        (now - g.start_time) * 1000 ≥ (m : ℚ)) ∧
    ((g.check_token_limit).isSome = true ↔
      ∃ m, g.config.max_tokens = some m ∧ g.token_count ≥ m) ∧
    ((g.check_cost_limit).isSome = true ↔
      ∃ m, g.config.max_cost_usd = some m ∧ g.cost_tracker ≥ m) :=
  ⟨check_step_limit_isSome_iff g, check_runtime_limit_isSome_iff g now,
   check_token_limit_isSome_iff g, check_cost_limit_isSome_iff g⟩

/-- Claim C2: with `max_steps = k`, `k` recorded steps pass the step check
and the `(k+1)`-th recorded step trips it, with `should_terminate` set,
reason "STEP_LIMIT_EXCEEDED" and a `step_count` detail of `k + 1`. -/
theorem step_limit_off_by_one (eid : String) (t : ℚ)
    (cfg : ExecutionLimitConfig) (k : ℕ) (_hk : 0 < k)
    (hcfg : cfg.max_steps = some (k : Int)) :
    (ExecutionGuard.increment_step^[k]
        (ExecutionGuard.init eid cfg t)).check_step_limit = none ∧
    ∃ r, (ExecutionGuard.increment_step^[k + 1]
        (ExecutionGuard.init eid cfg t)).check_step_limit = some r ∧
      r.should_terminate = true ∧ r.reason = "STEP_LIMIT_EXCEEDED" ∧
      r.details.lookup "step_count" = some (GValue.int ((k : Int) + 1)) := by
  have hconf1 := iterate_increment_config (ExecutionGuard.init eid cfg t) k
  have hconf2 := iterate_increment_config (ExecutionGuard.init eid cfg t) (k + 1)
  have hsc1 : (ExecutionGuard.increment_step^[k]
      (ExecutionGuard.init eid cfg t)).step_count = (k : Int) := by
    rw [iterate_increment_step_count]
    simp [ExecutionGuard.init]
  have hsc2 : (ExecutionGuard.increment_step^[k + 1]
      (ExecutionGuard.init eid cfg t)).step_count = (k : Int) + 1 := by
    rw [iterate_increment_step_count]
    simp [ExecutionGuard.init]
  constructor
  · rcases hval : (ExecutionGuard.increment_step^[k]
        (ExecutionGuard.init eid cfg t)).check_step_limit with _ | r
    · rfl
    · exfalso
      obtain ⟨m, hm, hgt, _⟩ := check_step_limit_some_eq _ r hval
      rw [hconf1, init_config, hcfg] at hm
      cases Option.some.inj hm
      rw [hsc1] at hgt
      omega
  · rcases hval : (ExecutionGuard.increment_step^[k + 1]
        (ExecutionGuard.init eid cfg t)).check_step_limit with _ | r
    · exfalso
      have hiss : ((ExecutionGuard.increment_step^[k + 1]
          (ExecutionGuard.init eid cfg t)).check_step_limit).isSome = true := by
        rw [check_step_limit_isSome_iff]
        refine ⟨(k : Int), by rw [hconf2, init_config, hcfg], by rw [hsc2]; omega⟩
      rw [hval] at hiss
      exact Bool.noConfusion hiss
    · obtain ⟨m, hm, hgt, hr⟩ := check_step_limit_some_eq _ r hval
      refine ⟨r, rfl, ?_, ?_, ?_⟩
      · rw [hr]
      · rw [hr]
      · rw [hr, hsc2]
        simp [List.lookup]

/-- Witness for C2 at `k = 2`. -/
theorem step_limit_off_by_one_witness :
    (ExecutionGuard.increment_step^[2]
        (ExecutionGuard.init "exec-w2" { max_steps := some 2 } 0)).check_step_limit = none ∧
    ∃ r, (ExecutionGuard.increment_step^[2 + 1]
        (ExecutionGuard.init "exec-w2" { max_steps := some 2 } 0)).check_step_limit = some r ∧
      r.should_terminate = true ∧ r.reason = "STEP_LIMIT_EXCEEDED" ∧
      r.details.lookup "step_count" = some (GValue.int 3) :=
  step_limit_off_by_one "exec-w2" 0 { max_steps := some 2 } 2 (by decide) rfl

/-- Claim C6: a limit dimension whose ceiling is unset never trips its
check, whatever mutating operations ran; with all four unset,
`check_all_limits` always reports "WITHIN_LIMITS". -/
theorem unset_limits_never_trip (g : ExecutionGuard) (ops : List GuardOp)
    (now : ℚ) :
    (g.config.max_steps = none → (g.applyOps ops).check_step_limit = none) ∧
    (g.config.max_runtime_ms = none →
      (g.applyOps ops).check_runtime_limit now = none) ∧
    (g.config.max_tokens = none → (g.applyOps ops).check_token_limit = none) ∧
    (g.config.max_cost_usd = none → (g.applyOps ops).check_cost_limit = none) ∧
    (g.config.max_steps = none ∧ g.config.max_runtime_ms = none ∧
     g.config.max_tokens = none ∧ g.config.max_cost_usd = none →
      ((g.applyOps ops).check_all_limits now).should_terminate = false ∧
      ((g.applyOps ops).check_all_limits now).reason = "WITHIN_LIMITS") := by
  have hcfg := (applyOps_frame ops g).2.1
  refine ⟨fun h => check_step_limit_unset _ (by rw [hcfg, h]),
          fun h => check_runtime_limit_unset _ now (by rw [hcfg, h]),
          fun h => check_token_limit_unset _ (by rw [hcfg, h]),
          fun h => check_cost_limit_unset _ (by rw [hcfg, h]),
          fun h => ?_⟩
  obtain ⟨h1, h2, h3, h4⟩ := h
  rw [check_all_limits_of_all_none _ now
        (check_step_limit_unset _ (by rw [hcfg, h1]))
        (check_runtime_limit_unset _ now (by rw [hcfg, h2]))
        (check_token_limit_unset _ (by rw [hcfg, h3]))
        (check_cost_limit_unset _ (by rw [hcfg, h4]))]
  exact ⟨rfl, rfl⟩

/-- Witness for C6: a guard with no limits stays within limits after a
concrete operation sequence. -/
theorem unset_limits_never_trip_witness :
    ((gSample.applyOps opsSample).check_all_limits 5).should_terminate = false ∧
    ((gSample.applyOps opsSample).check_all_limits 5).reason = "WITHIN_LIMITS" :=
  (unset_limits_never_trip gSample opsSample 5).2.2.2.2 ⟨rfl, rfl, rfl, rfl⟩

theorem check_runtime_limit_none_mono (g : ExecutionGuard) (t1 t2 : ℚ)
    (h12 : t1 ≤ t2) (h : g.check_runtime_limit t2 = none) :
    g.check_runtime_limit t1 = none := by
  have hno : ¬ ((g.check_runtime_limit t2).isSome = true) := by
    rw [h]
    simp
  rw [check_runtime_limit_isSome_iff] at hno
  rcases hval : g.check_runtime_limit t1 with _ | r
  · rfl
  · exfalso
    have h1 := check_runtime_limit_isSome_iff g t1
    rw [hval] at h1
    simp only [Option.isSome_some, true_iff] at h1
    obtain ⟨m, hm, hge⟩ := h1
    exact hno ⟨m, hm, by linarith⟩

/-- Claim C8: `check_all_limits` with no intervening mutation is stable: if
the later of two calls is within limits, both calls return the full
"WITHIN_LIMITS" result with identical counter details, and only the
elapsed-runtime detail grows with time. -/
theorem check_all_limits_within_stable (g : ExecutionGuard) (t1 t2 : ℚ)
    (h12 : t1 ≤ t2)
    (h2 : (g.check_all_limits t2).should_terminate = false) :
    g.check_all_limits t1 =
      { should_terminate := false
        reason := "WITHIN_LIMITS"
        details := [("step_count", GValue.int g.step_count),
                    ("runtime_ms", GValue.rat ((t1 - g.start_time) * 1000)),
                    ("token_count", GValue.int g.token_count),
                    ("cost_usd", GValue.rat g.cost_tracker)] } ∧
    g.check_all_limits t2 =
      { should_terminate := false
        reason := "WITHIN_LIMITS"
        details := [("step_count", GValue.int g.step_count),
                    ("runtime_ms", GValue.rat ((t2 - g.start_time) * 1000)),
                    ("token_count", GValue.int g.token_count),
                    ("cost_usd", GValue.rat g.cost_tracker)] } ∧
    (t1 - g.start_time) * 1000 ≤ (t2 - g.start_time) * 1000 := by
  have hstep : g.check_step_limit = none := by
    rcases hs : g.check_step_limit with _ | r
    · rfl
    · rw [check_all_limits_of_step_some g t2 r hs] at h2
      rw [(check_step_limit_some_spec g r hs).1] at h2
      exact Bool.noConfusion h2
  have hrt2 : g.check_runtime_limit t2 = none := by
    rcases hs : g.check_runtime_limit t2 with _ | r
    · rfl
    · rw [check_all_limits_of_runtime_some g t2 r hstep hs] at h2
      rw [(check_runtime_limit_some_spec g t2 r hs).1] at h2
      exact Bool.noConfusion h2
  have htok : g.check_token_limit = none := by
    rcases hs : g.check_token_limit with _ | r
    · rfl
    · rw [check_all_limits_of_token_some g t2 r hstep hrt2 hs] at h2
      rw [(check_token_limit_some_spec g r hs).1] at h2
      exact Bool.noConfusion h2
  have hcost : g.check_cost_limit = none := by
    rcases hs : g.check_cost_limit with _ | r
    · rfl
    · rw [check_all_limits_of_cost_some g t2 r hstep hrt2 htok hs] at h2
      rw [(check_cost_limit_some_spec g r hs).1] at h2
      exact Bool.noConfusion h2
  have hrt1 := check_runtime_limit_none_mono g t1 t2 h12 hrt2
  exact ⟨check_all_limits_of_all_none g t1 hstep hrt1 htok hcost,
         check_all_limits_of_all_none g t2 hstep hrt2 htok hcost,
         by linarith⟩

/-- Witness for C8: two successive within-limits calls on a concrete
guard. -/
theorem check_all_limits_within_stable_witness :
    gSample.check_all_limits 1 =
      { should_terminate := false
        reason := "WITHIN_LIMITS"
        details := [("step_count", GValue.int gSample.step_count),
                    ("runtime_ms", GValue.rat ((1 - gSample.start_time) * 1000)),
                    ("token_count", GValue.int gSample.token_count),
                    ("cost_usd", GValue.rat gSample.cost_tracker)] } ∧
    gSample.check_all_limits 2 =
      { should_terminate := false
        reason := "WITHIN_LIMITS"
        details := [("step_count", GValue.int gSample.step_count),
                    ("runtime_ms", GValue.rat ((2 - gSample.start_time) * 1000)),
                    ("token_count", GValue.int gSample.token_count),
                    ("cost_usd", GValue.rat gSample.cost_tracker)] } ∧
    (1 - gSample.start_time) * 1000 ≤ (2 - gSample.start_time) * 1000 :=
  check_all_limits_within_stable gSample 1 2 (by norm_num) rfl

/-- Counterexample for C4: constructing a guard from a configuration with
the invalid limit `max_steps = -1` is not rejected — the constructor
yields a guard that stores the configuration verbatim with zero counters,
and the invalid value is only discovered later, by the very first
`check_step_limit`, which trips immediately. -/
theorem init_negative_limit_not_rejected :
    (ExecutionGuard.init "exec-neg" { max_steps := some (-1) } 0).config.max_steps
        = some (-1) ∧
    (ExecutionGuard.init "exec-neg" { max_steps := some (-1) } 0).step_count = 0 ∧
    ((ExecutionGuard.init "exec-neg" { max_steps := some (-1) } 0).check_step_limit).isSome
        = true :=
  ⟨rfl, rfl, rfl⟩

/-- Claim C4 as amended: construction never fails — it accepts any
configuration unchanged, including invalid (negative) limits, and starts
all counters at zero; a negative `max_steps` is only discovered during
checks, where `check_step_limit` trips immediately. -/
theorem init_accepts_any_config (eid : String) (cfg : ExecutionLimitConfig)
    (now : ℚ) :
    (ExecutionGuard.init eid cfg now).execution_id = eid ∧
    (ExecutionGuard.init eid cfg now).config = cfg ∧
    (ExecutionGuard.init eid cfg now).start_time = now ∧
    (ExecutionGuard.init eid cfg now).step_count = 0 ∧
    (ExecutionGuard.init eid cfg now).token_count = 0 ∧
    (ExecutionGuard.init eid cfg now).cost_tracker = 0 ∧
    (∀ m : Int, cfg.max_steps = some m → m < 0 →
      ((ExecutionGuard.init eid cfg now).check_step_limit).isSome = true) := by
  refine ⟨rfl, rfl, rfl, rfl, rfl, rfl, fun m hm hneg => ?_⟩
  rw [check_step_limit_isSome_iff]
  refine ⟨m, by rw [init_config]; exact hm, by rw [init_step_count]; omega⟩

/-- Witness for the amended C4 at a concrete negative limit. -/
theorem init_accepts_any_config_witness :
    (ExecutionGuard.init "exec-neg2" { max_steps := some (-1) } 0).config
        = { max_steps := some (-1) } ∧
    ((ExecutionGuard.init "exec-neg2" { max_steps := some (-1) } 0).check_step_limit).isSome
        = true :=
  ⟨(init_accepts_any_config "exec-neg2" { max_steps := some (-1) } 0).2.1,
   (init_accepts_any_config "exec-neg2" { max_steps := some (-1) } 0).2.2.2.2.2.2
     (-1) rfl (by decide)⟩
